import Mathlib

/-!
Verification development for the foiafeed ingestion-and-deduplication
pipeline (foiafeed.py).  The Python source is shallowly embedded: pure
functions become Lean functions; the network collaborators (redirect
resolution, article fetch plus readability extraction, image upload,
status posting) become oracle functions supplied through `PipelineEnv`;
a raised Python exception becomes `Except PyErr` or the error component
threaded through the orchestrator; the SQLite articles table becomes a
list of `SeenRecord`s kept in insertion (= rowid) order.
-/

/-- Python exception classes relevant to the pipeline. -/
inductive PyErr where
  | keyError
  | requestError
  | twythonError
deriving DecidableEq, Repr

/-- Feed entry as returned by feedparser.  A `none` field models a missing
key: the dictionary access in parse_feed then raises KeyError. -/
structure Entry where
  title : Option String
  link : Option String
deriving DecidableEq, Repr

/-- Rendered excerpt image.  render_img itself is external (PIL); the
embedding keeps the text and the wrap width it was rendered at. -/
abbrev Img := String × Nat

/-- FOIA_PHRASES from foiafeed.py.  Comparison happens in lowercase. -/
def FOIA_PHRASES : List String :=
  ["f.o.i.a.",
   "foia",
   "freedom of information act",
   "freedom of information law",
   "records request",
   "open records",
   "public records act",
   "public records law"]

/-- Lowercasing of a character list (Python str.lower on the text). -/
def lower_chars (l : List Char) : List Char := l.map Char.toLower

/-- Test that the second list begins with the first. -/
def starts_with_chars : List Char → List Char → Bool
  | [], _ => true
  | _ :: _, [] => false
  | n :: ns, h :: hs => n == h && starts_with_chars ns hs

/-- Substring containment: the semantics of Python `needle in hay`. -/
def contains_chars (needle : List Char) : List Char → Bool
  | [] => starts_with_chars needle []
  | c :: hs => starts_with_chars needle (c :: hs) || contains_chars needle hs

/-- Splitting at every newline character, the semantics of the Python call
`plaintext.split` with a single newline separator: n separators yield
n+1 pieces, empty pieces included. -/
def split_newlines : List Char → List (List Char)
  | [] => [[]]
  | c :: rest =>
    if c = '\n' then [] :: split_newlines rest
    else
      match split_newlines rest with
      | [] => [[c]]
      | g :: gs => (c :: g) :: gs

/-- decruft_url from foiafeed.py: `url.split` on the question mark, first
piece, then `split` on the hash character, first piece — that is, the
prefix of the URL before the first question mark and the first hash. -/
def decruft_url (url : String) : String :=
  String.mk ((url.data.takeWhile (fun c => c != '?')).takeWhile (fun c => c != '#'))

/-- Article.canonicalize_url.  The network redirect resolution performed by
requests.head for ProPublica and Reuters is modelled by the oracle
function `resolve`. -/
def canonicalize_url (resolve : String → String) (outlet url : String) : String :=
  let url1 := if outlet == "ProPublica" || outlet == "Reuters" then resolve url else url
  if !(outlet == "AP") then decruft_url url1 else url1

/-- Match test of one paragraph, from Article.check_for_matches:
`any(phrase.lower() in graf.lower() for phrase in FOIA_PHRASES)`. -/
def graf_matches (graf : List Char) : Bool :=
  FOIA_PHRASES.any (fun phrase => contains_chars (lower_chars phrase.data) (lower_chars graf))

/-- Paragraphs of a plaintext document: `plaintext.split` on newlines. -/
def grafs (plaintext : String) : List String :=
  (split_newlines plaintext.data).map String.mk

/-- Matching paragraphs of a plaintext document, in original order, with
original case, duplicates kept. -/
def match_grafs (plaintext : String) : List String :=
  ((split_newlines plaintext.data).filter graf_matches).map String.mk

/-- Transient article object. `media_ids` models the Python attribute
self.media_ids; `none` means the attribute was never created. -/
structure Article where
  outlet : String
  title : String
  url : String
  matching_grafs : List String
  imgs : List Img
  media_ids : Option (List Nat)
  tweeted : Bool
deriving DecidableEq, Repr

/-- Article.__init__: the URL is canonicalized immediately; note that
__init__ never initialises self.media_ids. -/
def Article.init (resolve : String → String) (outlet title url : String) : Article :=
  { outlet := outlet
    title := title
    url := canonicalize_url resolve outlet url
    matching_grafs := []
    imgs := []
    media_ids := none
    tweeted := false }

/-- Article.check_for_matches.  clean_article (requests.get + readability +
html2text) is the oracle `fetch`; an exception raised there propagates
as `Except.error`. -/
def Article.check_for_matches (fetch : String → Except PyErr String) (a : Article) :
    Except PyErr Article :=
  match fetch a.url with
  | .error e => .error e
  | .ok plaintext => .ok { a with matching_grafs := a.matching_grafs ++ match_grafs plaintext }

/-- render_img adapter: records the excerpt text and the wrap width. -/
def render_img (graf : String) (width : Nat) : Img := (graf, width)

/-- Upload loop of Article.tweet: every image is uploaded inside a
try/except that swallows all exceptions.  After a successful upload the
source appends the media id to self.media_ids; when that attribute does
not exist (`none`) the append raises AttributeError, which the bare
except also swallows.  The local media_ids list of tweet is never
touched by this loop. -/
def upload_loop (upload : Img → Except PyErr Nat) : Article → List Img → Article
  | a, [] => a
  | a, img :: rest =>
    match upload img with
    | .error _ => upload_loop upload a rest
    | .ok mid =>
      match a.media_ids with
      | none => upload_loop upload a rest
      | some l => upload_loop upload { a with media_ids := some (l ++ [mid]) } rest

/-- Article.tweet up to and including the assembly of the arguments of
twitter.update_status: the renders, the upload loop, the status text.
Returns the article, the status text, and the local media_ids list that
is passed to update_status. -/
def Article.tweet_call (upload : Img → Except PyErr Nat) (a : Article) :
    Article × String × List Nat :=
  let width := if a.matching_grafs.length == 1 then 60 else 35
  let a1 : Article :=
    { a with imgs := a.imgs ++ (a.matching_grafs.take 4).map (fun g => render_img g width) }
  let media_ids : List Nat := []
  let a2 := upload_loop upload a1 a1.imgs
  (a2, a2.outlet ++ ": " ++ a2.title ++ " " ++ a2.url, media_ids)

/-- Article.tweet: post the status; on success mark the article tweeted; a
failure of update_status propagates. -/
def Article.tweet (upload : Img → Except PyErr Nat)
    (post : String → List Nat → Except PyErr Nat) (a : Article) : Except PyErr Article :=
  match a.tweet_call upload with
  | (a1, status, media_ids) =>
    match post status media_ids with
    | .error e => .error e
    | .ok _ => .ok { a1 with tweeted := true }

/-- Row of the articles table.  The id column is the list position
(insertion order); recorded_at is the run clock at insertion time
(datetime.utcnow in the source). -/
structure SeenRecord where
  title : String
  outlet : String
  url : String
  tweeted : Bool
  recorded_at : Nat
deriving DecidableEq, Repr

/-- Observable calls to the per-article collaborators, used to state that a
dropped article is never passed to the matcher or the publisher. -/
inductive RunEvent where
  | matchCalled (url : String)
  | tweetCalled (url : String)
deriving DecidableEq, Repr

def RunEvent.url : RunEvent → String
  | .matchCalled u => u
  | .tweetCalled u => u

/-- Mutable state of a run: the durable store, the call trace, a clock. -/
structure RunState where
  store : List SeenRecord
  trace : List RunEvent
  clock : Nat
deriving DecidableEq, Repr

/-- Oracles for the external collaborators of the pipeline. -/
structure PipelineEnv where
  resolve : String → String
  fetch : String → Except PyErr String
  upload : Img → Except PyErr Nat
  post : String → List Nat → Except PyErr Nat

/-- parse_feed over the entries that feedparser returned: one Article per
entry.  The accesses `entry` at key title and at key link raise KeyError
when the key is missing, which aborts the whole parse. -/
def parse_feed (resolve : String → String) (outlet : String) :
    List Entry → Except PyErr (List Article)
  | [] => .ok []
  | e :: rest =>
    match e.title with
    | none => .error .keyError
    | some title =>
      match e.link with
      | none => .error .keyError
      | some link =>
        match parse_feed resolve outlet rest with
        | .error err => .error err
        | .ok arts => .ok (Article.init resolve outlet title link :: arts)

/-- SQL query of main: select url from articles where outlet=? order by id
desc limit 1000.  The store list is in id order, so id desc reverses. -/
def recent_urls (store : List SeenRecord) (outlet : String) : List String :=
  (((store.filter (fun r => r.outlet == outlet)).reverse).take 1000).map (fun r => r.url)

/-- Loop body of main for one surviving article: run the matcher, tweet
when some paragraph matched, then insert the row and commit.  An
uncaught exception leaves the state as it was at the raise and is
reported in the second component. -/
def process_article (env : PipelineEnv) (a : Article) (s : RunState) :
    RunState × Option PyErr :=
  let s1 : RunState := { s with trace := s.trace ++ [RunEvent.matchCalled a.url] }
  match a.check_for_matches env.fetch with
  | .error e => (s1, some e)
  | .ok a1 =>
    if a1.matching_grafs.isEmpty then
      ({ s1 with
          store := s1.store ++ [⟨a1.title, a1.outlet, a1.url, a1.tweeted, s1.clock⟩]
          clock := s1.clock + 1 }, none)
    else
      let s2 : RunState := { s1 with trace := s1.trace ++ [RunEvent.tweetCalled a1.url] }
      match a1.tweet env.upload env.post with
      | .error e => (s2, some e)
      | .ok a2 =>
        ({ s2 with
            store := s2.store ++ [⟨a2.title, a2.outlet, a2.url, a2.tweeted, s2.clock⟩]
            clock := s2.clock + 1 }, none)

/-- Sequential processing of the surviving articles of one outlet; the
first uncaught exception aborts the rest of the batch. -/
def process_articles (env : PipelineEnv) : List Article → RunState → RunState × Option PyErr
  | [], s => (s, none)
  | a :: rest, s =>
    match process_article env a s with
    | (s1, none) => process_articles env rest s1
    | (s1, some e) => (s1, some e)

/-- Body of the per-feed loop of main: parse the feed, read the dedup
window, drop articles whose canonical URL is in it, process the
survivors in feed order. -/
def run_outlet (env : PipelineEnv) (outlet : String) (entries : List Entry) (s : RunState) :
    RunState × Option PyErr :=
  match parse_feed env.resolve outlet entries with
  | .error e => (s, some e)
  | .ok articles =>
    let recents := recent_urls s.store outlet
    process_articles env (articles.filter (fun a => !(recents.contains a.url))) s

/-- main over all configured feeds, in order. -/
def run_feeds (env : PipelineEnv) : List (String × List Entry) → RunState → RunState × Option PyErr
  | [], s => (s, none)
  | (outlet, entries) :: rest, s =>
    match run_outlet env outlet entries s with
    | (s1, none) => run_feeds env rest s1
    | (s1, some e) => (s1, some e)

/-! Concrete fixtures used by the witnesses and counterexamples below. -/

/-- Environment where every external call succeeds and the fetched article
text mentions FOIA. -/
def c1_env : PipelineEnv :=
  { resolve := fun u => u
    fetch := fun _ => .ok "a foia story"
    upload := fun _ => .ok 1
    post := fun _ _ => .ok 1 }

/-- Store holding one prior record for outlet X. -/
def c1_store : List SeenRecord := [⟨"Old", "X", "http://x.com/a", false, 0⟩]

/-- One feed entry whose canonical URL is already in the store. -/
def c1_entries : List Entry := [⟨some "T", some "http://x.com/a?utm=1"⟩]

/-- Environment whose update_status call always fails. -/
def c2_env : PipelineEnv :=
  { resolve := fun u => u
    fetch := fun _ => .ok "about the records request"
    upload := fun _ => .ok 7
    post := fun _ _ => .error .twythonError }

def c2_entries : List Entry := [⟨some "T", some "http://x.com/a"⟩]

/-- Environment where nothing fails and the fetched text never matches. -/
def c2w_env : PipelineEnv :=
  { resolve := fun u => u
    fetch := fun _ => .ok "nothing relevant here"
    upload := fun _ => .ok 1
    post := fun _ _ => .ok 1 }

def c2w_entries : List Entry :=
  [⟨some "T", some "http://x.com/a?z"⟩, ⟨some "U", some "http://x.com/b"⟩]

def c2w_store : List SeenRecord := [⟨"Old", "X", "http://x.com/b", false, 0⟩]

def c2w_arts : List Article :=
  [Article.init c2w_env.resolve "X" "T" "http://x.com/a?z",
   Article.init c2w_env.resolve "X" "U" "http://x.com/b"]

/-- Document of the matcher example: three paragraphs, the second and third
mention public-records phrases. -/
def c3_text : String :=
  "Para one.\nThis mentions FOIA here.\nPara three about public RECORDS LAW."

/-- Fetch oracle of the matcher example. -/
def c3_fetch : String → Except PyErr String := fun _ => .ok c3_text

def c3_article : Article := Article.init (fun u => u) "AP" "T" "http://example.com/x"

/-- Environment with matching text and a failing update_status call. -/
def c4_env : PipelineEnv :=
  { resolve := fun u => u
    fetch := fun _ => .ok "an open records case"
    upload := fun _ => .ok 7
    post := fun _ _ => .error .twythonError }

def c4_article : Article := Article.init c4_env.resolve "X" "T" "http://x.com/a"

def c4_rest : List Article := [Article.init c4_env.resolve "X" "U" "http://x.com/b"]

def c4_entries : List Entry :=
  [⟨some "T", some "http://x.com/a"⟩, ⟨some "U", some "http://x.com/b"⟩]

/-- Environment whose article fetch (clean_article) always fails. -/
def c5_env : PipelineEnv :=
  { resolve := fun u => u
    fetch := fun _ => .error .requestError
    upload := fun _ => .ok 1
    post := fun _ _ => .ok 1 }

def c5_entries : List Entry :=
  [⟨some "T", some "http://x.com/a"⟩, ⟨some "U", some "http://x.com/b"⟩]

def c5_a : Article := Article.init c5_env.resolve "X" "T" "http://x.com/a"

def c5_rest : List Article := [Article.init c5_env.resolve "X" "U" "http://x.com/b"]

/-- Environment where every external call succeeds. -/
def c6_env : PipelineEnv :=
  { resolve := fun u => u
    fetch := fun _ => .ok "x"
    upload := fun _ => .ok 1
    post := fun _ _ => .ok 1 }

/-- Entry list whose first entry lacks a title. -/
def c6_entries : List Entry := [⟨none, some "http://x.com/a"⟩, ⟨some "U", some "http://x.com/b"⟩]

/-- Entry list whose first entry lacks a link. -/
def c6x_entries : List Entry := [⟨some "T", none⟩, ⟨some "U", some "http://y.com/b"⟩]

/-- Resolver oracle under which redirect resolution composed with query
stripping is not idempotent: a resolves to b?q, and b resolves to c. -/
def c7_resolve : String → String :=
  fun u => if u = "a" then "b?q" else if u = "b" then "c" else u

/-- Article carrying six matching excerpts, ready for tweet. -/
def c8_article : Article :=
  { outlet := "X"
    title := "T"
    url := "http://x.com/a"
    matching_grafs :=
      ["foia one", "foia two", "foia three", "foia four", "foia five", "foia six"]
    imgs := []
    media_ids := none
    tweeted := false }

def c8_upload : Img → Except PyErr Nat := fun _ => .ok 7

/-- Article carrying one matching excerpt, with the media_ids attribute
never created, ready for tweet. -/
def c10_article : Article :=
  { outlet := "X"
    title := "T"
    url := "http://x.com/a"
    matching_grafs := ["records request now"]
    imgs := []
    media_ids := none
    tweeted := false }

def c10_upload : Img → Except PyErr Nat := fun _ => .ok 99

/-! Helper lemmas. -/

/-- Members of a takeWhile prefix satisfy the predicate. -/
theorem takeWhile_mem_pred {α : Type} (p : α → Bool) (l : List α) :
    ∀ x ∈ l.takeWhile p, p x = true := by
  induction l with
  | nil => simp
  | cons a as ih =>
    intro x hx
    rw [List.takeWhile_cons] at hx
    by_cases h : p a = true
    · rw [if_pos h] at hx
      rcases List.mem_cons.mp hx with rfl | hx2
      · exact h
      · exact ih x hx2
    · rw [if_neg h] at hx
      cases hx

/-- takeWhile leaves a list unchanged when every member satisfies the
predicate. -/
theorem takeWhile_of_all {α : Type} (p : α → Bool) (l : List α)
    (h : ∀ x ∈ l, p x = true) : l.takeWhile p = l := by
  induction l with
  | nil => rfl
  | cons a as ih =>
    rw [List.takeWhile_cons, if_pos (h a (List.mem_cons_self a as))]
    rw [ih (fun x hx => h x (List.mem_cons.mpr (Or.inr hx)))]

/-- The takeWhile prefix is a subset of the list. -/
theorem takeWhile_mem_sub {α : Type} (p : α → Bool) (l : List α) :
    ∀ x ∈ l.takeWhile p, x ∈ l := by
  induction l with
  | nil => simp
  | cons a as ih =>
    intro x hx
    rw [List.takeWhile_cons] at hx
    by_cases h : p a = true
    · rw [if_pos h] at hx
      rcases List.mem_cons.mp hx with rfl | hx2
      · exact List.mem_cons_self x as
      · exact List.mem_cons.mpr (Or.inr (ih x hx2))
    · rw [if_neg h] at hx
      cases hx

/-- Stripping at the first question mark and then at the first hash is an
idempotent operation on character lists. -/
theorem takeWhile_qh_idem (l : List Char) :
    ((((l.takeWhile (fun c => c != '?')).takeWhile (fun c => c != '#')).takeWhile
        (fun c => c != '?')).takeWhile (fun c => c != '#')) =
      (l.takeWhile (fun c => c != '?')).takeWhile (fun c => c != '#') := by
  have h1 : ((l.takeWhile (fun c => c != '?')).takeWhile (fun c => c != '#')).takeWhile
      (fun c => c != '?') = (l.takeWhile (fun c => c != '?')).takeWhile (fun c => c != '#') := by
    apply takeWhile_of_all
    intro x hx
    exact takeWhile_mem_pred (fun c => c != '?') l x
      (takeWhile_mem_sub (fun c => c != '#') (l.takeWhile (fun c => c != '?')) x hx)
  rw [h1]
  apply takeWhile_of_all
  intro x hx
  exact takeWhile_mem_pred (fun c => c != '#') (l.takeWhile (fun c => c != '?')) x hx

/-- decruft_url is idempotent. -/
theorem decruft_url_idem (u : String) : decruft_url (decruft_url u) = decruft_url u :=
  congrArg String.mk (takeWhile_qh_idem u.data)

/-- Mapping String.mk commutes with filtering. -/
theorem map_mk_filter (p : List Char → Bool) (l : List (List Char)) :
    (l.filter p).map String.mk = (l.map String.mk).filter (fun s => p s.data) := by
  induction l with
  | nil => rfl
  | cons x xs ih =>
    by_cases h : p x
    · simp [List.filter_cons, h, ih]
    · simp [List.filter_cons, h, ih]

/-- Occurrence count in a filtered list. -/
theorem count_filter_eq {α : Type} [BEq α] [LawfulBEq α] (q : α → Bool) (l : List α) (x : α) :
    (l.filter q).count x = if q x then l.count x else 0 := by
  by_cases hq : q x
  · rw [if_pos hq]
    exact List.count_filter hq
  · rw [if_neg hq]
    apply List.count_eq_zero.mpr
    intro hmem
    exact hq (List.of_mem_filter hmem)

/-- check_for_matches never changes the canonical URL. -/
theorem check_for_matches_url (fetch : String → Except PyErr String) (a a1 : Article)
    (h : a.check_for_matches fetch = Except.ok a1) : a1.url = a.url := by
  unfold Article.check_for_matches at h
  cases hf : fetch a.url with
  | error e => rw [hf] at h; exact absurd h (by simp)
  | ok t =>
    rw [hf] at h
    injection h with h
    rw [← h]

/-- The upload loop changes no field of the article except media_ids. -/
theorem upload_loop_fields (upload : Img → Except PyErr Nat) (a : Article) (l : List Img) :
    (upload_loop upload a l).outlet = a.outlet ∧
    (upload_loop upload a l).title = a.title ∧
    (upload_loop upload a l).url = a.url ∧
    (upload_loop upload a l).imgs = a.imgs ∧
    (upload_loop upload a l).matching_grafs = a.matching_grafs ∧
    (upload_loop upload a l).tweeted = a.tweeted := by
  induction l generalizing a with
  | nil => exact ⟨rfl, rfl, rfl, rfl, rfl, rfl⟩
  | cons img rest ih =>
    rw [upload_loop]
    cases upload img with
    | error e => exact ih a
    | ok mid =>
      cases h : a.media_ids with
      | none => exact ih a
      | some lm => exact ih { a with media_ids := some (lm ++ [mid]) }

/-- The upload loop never creates the media_ids attribute: started with the
attribute missing, every append attempt dies with a swallowed
AttributeError. -/
theorem upload_loop_media_none (upload : Img → Except PyErr Nat) (a : Article)
    (l : List Img) (h : a.media_ids = none) :
    (upload_loop upload a l).media_ids = none := by
  induction l generalizing a with
  | nil => exact h
  | cons img rest ih =>
    rw [upload_loop]
    cases upload img with
    | error e => exact ih a h
    | ok mid =>
      rw [h]
      exact ih a h

/-- Every event process_article appends carries the URL of the article it
processed. -/
theorem process_article_trace (env : PipelineEnv) (a : Article) (s : RunState) :
    ∃ d, (process_article env a s).1.trace = s.trace ++ d ∧
      ∀ ev ∈ d, RunEvent.url ev = a.url := by
  cases hc : a.check_for_matches env.fetch with
  | error e =>
    refine ⟨[RunEvent.matchCalled a.url], ?_, ?_⟩
    · simp [process_article, hc]
    · intro ev h
      rw [List.mem_singleton] at h
      subst h
      rfl
  | ok a1 =>
    have hurl := check_for_matches_url env.fetch a a1 hc
    cases hemp : a1.matching_grafs.isEmpty with
    | true =>
      refine ⟨[RunEvent.matchCalled a.url], ?_, ?_⟩
      · simp [process_article, hc, hemp]
      · intro ev h
        rw [List.mem_singleton] at h
        subst h
        rfl
    | false =>
      refine ⟨[RunEvent.matchCalled a.url, RunEvent.tweetCalled a1.url], ?_, ?_⟩
      · cases htw : a1.tweet env.upload env.post with
        | error e => simp [process_article, hc, hemp, htw]
        | ok a2 => simp [process_article, hc, hemp, htw]
      · intro ev h
        rcases List.mem_cons.mp h with rfl | h2
        · rfl
        · rw [List.mem_singleton] at h2
          subst h2
          exact hurl

/-- When process_article raises, the store is untouched. -/
theorem process_article_store_err (env : PipelineEnv) (a : Article) (s s' : RunState)
    (e : PyErr) (h : process_article env a s = (s', some e)) : s'.store = s.store := by
  cases hc : a.check_for_matches env.fetch with
  | error e1 =>
    simp only [process_article, hc] at h
    obtain ⟨h1, h2⟩ := Prod.mk.injEq .. ▸ h
    rw [← h1]
  | ok a1 =>
    cases hemp : a1.matching_grafs.isEmpty with
    | true =>
      simp only [process_article, hc, hemp] at h
      exact absurd h (by simp)
    | false =>
      cases htw : a1.tweet env.upload env.post with
      | error e1 =>
        simp only [process_article, hc, hemp, htw] at h
        obtain ⟨h1, h2⟩ := Prod.mk.injEq .. ▸ h
        rw [← h1]
      | ok a2 =>
        simp only [process_article, hc, hemp, htw] at h
        exact absurd h (by simp)

/-- When process_article returns normally, exactly one row was inserted. -/
theorem process_article_store_ok (env : PipelineEnv) (a : Article) (s s' : RunState)
    (h : process_article env a s = (s', none)) :
    s'.store.length = s.store.length + 1 := by
  cases hc : a.check_for_matches env.fetch with
  | error e1 =>
    simp only [process_article, hc] at h
    exact absurd h (by simp)
  | ok a1 =>
    cases hemp : a1.matching_grafs.isEmpty with
    | true =>
      simp only [process_article, hc, hemp] at h
      obtain ⟨h1, h2⟩ := Prod.mk.injEq .. ▸ h
      rw [← h1]
      simp
    | false =>
      cases htw : a1.tweet env.upload env.post with
      | error e1 =>
        simp only [process_article, hc, hemp, htw] at h
        exact absurd h (by simp)
      | ok a2 =>
        simp only [process_article, hc, hemp, htw] at h
        obtain ⟨h1, h2⟩ := Prod.mk.injEq .. ▸ h
        rw [← h1]
        simp

/-- A failing head article stops the whole batch. -/
theorem process_articles_cons_err (env : PipelineEnv) (a : Article) (rest : List Article)
    (s s1 : RunState) (e : PyErr) (h : process_article env a s = (s1, some e)) :
    process_articles env (a :: rest) s = (s1, some e) := by
  rw [process_articles, h]

/-- Every event a batch appends carries the URL of one of its articles. -/
theorem process_articles_trace (env : PipelineEnv) (l : List Article) (s : RunState) :
    ∃ d, (process_articles env l s).1.trace = s.trace ++ d ∧
      ∀ ev ∈ d, ∃ a ∈ l, RunEvent.url ev = a.url := by
  induction l generalizing s with
  | nil => exact ⟨[], by simp [process_articles], by simp⟩
  | cons a rest ih =>
    obtain ⟨d1, h1, h1u⟩ := process_article_trace env a s
    rcases hpa : process_article env a s with ⟨s1, r⟩
    rw [hpa] at h1
    cases r with
    | none =>
      obtain ⟨d2, h2, h2u⟩ := ih s1
      refine ⟨d1 ++ d2, ?_, ?_⟩
      · rw [process_articles, hpa, h2, h1, List.append_assoc]
      · intro ev h
        rcases List.mem_append.mp h with hm | hm
        · exact ⟨a, List.mem_cons_self a rest, h1u ev hm⟩
        · obtain ⟨a2, ha2, hu2⟩ := h2u ev hm
          exact ⟨a2, List.mem_cons.mpr (Or.inr ha2), hu2⟩
    | some e =>
      refine ⟨d1, ?_, ?_⟩
      · rw [process_articles, hpa, h1]
      · intro ev h
        exact ⟨a, List.mem_cons_self a rest, h1u ev h⟩

/-- A batch that completes without exception inserts exactly one row per
article. -/
theorem process_articles_store_ok (env : PipelineEnv) (l : List Article) (s s' : RunState)
    (h : process_articles env l s = (s', none)) :
    s'.store.length = s.store.length + l.length := by
  induction l generalizing s with
  | nil =>
    rw [process_articles] at h
    obtain ⟨h1, h2⟩ := Prod.mk.injEq .. ▸ h
    rw [← h1]
    simp
  | cons a rest ih =>
    rcases hpa : process_article env a s with ⟨s1, r⟩
    cases r with
    | none =>
      rw [process_articles, hpa] at h
      have := ih s1 h
      rw [this, process_article_store_ok env a s s1 hpa]
      simp only [List.length_cons]
      omega
    | some e =>
      rw [process_articles, hpa] at h
      exact absurd h (by simp)

/-- One malformed entry anywhere in the feed makes the whole parse raise
KeyError. -/
theorem parse_feed_malformed (resolve : String → String) (outlet : String)
    (entries : List Entry) (h : ∃ e ∈ entries, e.title = none ∨ e.link = none) :
    parse_feed resolve outlet entries = Except.error PyErr.keyError := by
  induction entries with
  | nil =>
    obtain ⟨e, he, -⟩ := h
    exact absurd he (List.not_mem_nil e)
  | cons e0 rest ih =>
    obtain ⟨e, he, hor⟩ := h
    rcases List.mem_cons.mp he with rfl | hmem
    · rcases hor with hor | hor
      · simp [parse_feed, hor]
      · cases h0 : e.title with
        | none => simp [parse_feed, h0]
        | some t => simp [parse_feed, h0, hor]
    · have hr := ih ⟨e, hmem, hor⟩
      cases h0 : e0.title with
      | none => simp [parse_feed, h0]
      | some t =>
        cases h1 : e0.link with
        | none => simp [parse_feed, h0, h1]
        | some lk => simp [parse_feed, h0, h1, hr]

/-- The upload loop leaves the status components unchanged. -/
theorem upload_loop_status (upload : Img → Except PyErr Nat) (a : Article) (l : List Img) :
    (upload_loop upload a l).outlet ++ ": " ++ (upload_loop upload a l).title ++ " " ++
        (upload_loop upload a l).url =
      a.outlet ++ ": " ++ a.title ++ " " ++ a.url := by
  obtain ⟨ho, ht, hu, -, -, -⟩ := upload_loop_fields upload a l
  rw [ho, ht, hu]

/-! Claim theorems. -/

/-- C7 (amended): URL canonicalization is idempotent for every outlet that
does not resolve redirects over the network, that is every outlet other
than ProPublica and Reuters; and stripping the query string and fragment
(decruft_url) is idempotent on every URL, already stripped ones
included.  For ProPublica and Reuters the result passes through the
network resolver, and idempotence can fail (see the counterexample). -/
theorem canonicalize_url_idem :
    (∀ (resolve : String → String) (outlet url : String),
        outlet ≠ "ProPublica" → outlet ≠ "Reuters" →
        canonicalize_url resolve outlet (canonicalize_url resolve outlet url) =
          canonicalize_url resolve outlet url)
    ∧ ∀ url : String, decruft_url (decruft_url url) = decruft_url url := by
  constructor
  · intro resolve outlet url h1 h2
    have hb : (outlet == "ProPublica" || outlet == "Reuters") = false := by
      simp [h1, h2]
    by_cases hAP : outlet = "AP"
    · subst hAP
      simp [canonicalize_url]
    · have hb2 : (outlet == "AP") = false := by simp [hAP]
      simp [canonicalize_url, hb, hb2, decruft_url_idem]
  · exact decruft_url_idem

/-- C7 counterexample: under the resolver oracle c7_resolve the outlet
ProPublica is not idempotently canonicalized: once gives b, twice gives
c. -/
theorem canonicalize_url_not_idem :
    canonicalize_url c7_resolve "ProPublica"
        (canonicalize_url c7_resolve "ProPublica" "a") ≠
      canonicalize_url c7_resolve "ProPublica" "a" := by decide

/-- C3: the matcher returns exactly those newline-delimited paragraphs that
contain, case-insensitively, a phrase of the fixed lexicon — in original
order (a sublist of the paragraph list), original case, duplicates kept
(occurrence counts preserved), empty exactly when no paragraph matches —
and check_for_matches appends exactly that list to the article. -/
theorem match_grafs_spec (t : String) :
    match_grafs t = (grafs t).filter (fun g => graf_matches g.data)
    ∧ (match_grafs t).Sublist (grafs t)
    ∧ (∀ g : String, (match_grafs t).count g =
        if graf_matches g.data then (grafs t).count g else 0)
    ∧ (match_grafs t = [] ↔ ∀ g ∈ grafs t, graf_matches g.data = false)
    ∧ ∀ (fetch : String → Except PyErr String) (a : Article),
        fetch a.url = Except.ok t →
        a.check_for_matches fetch =
          Except.ok { a with matching_grafs := a.matching_grafs ++ match_grafs t } := by
  have h1 : match_grafs t = (grafs t).filter (fun g => graf_matches g.data) :=
    map_mk_filter graf_matches (split_newlines t.data)
  refine ⟨h1, ?_, ?_, ?_, ?_⟩
  · rw [h1]
    exact List.filter_sublist (grafs t)
  · intro g
    rw [h1]
    exact count_filter_eq (fun g => graf_matches g.data) (grafs t) g
  · rw [h1]
    simp [List.filter_eq_nil_iff]
  · intro fetch a hf
    simp [Article.check_for_matches, hf]

/-- C3 witness: the example text yields exactly its second and third
paragraphs, and check_for_matches appends them to a concrete article. -/
theorem match_grafs_spec_witness :
    match_grafs c3_text =
      ["This mentions FOIA here.", "Para three about public RECORDS LAW."]
    ∧ c3_article.check_for_matches c3_fetch =
        Except.ok { c3_article with matching_grafs := c3_article.matching_grafs ++ match_grafs c3_text } :=
  ⟨by decide, (match_grafs_spec c3_text).2.2.2.2 c3_fetch c3_article rfl⟩

/-- C9: the status text assembled by tweet is the outlet identifier, a
colon and a space, the title, a space, and the canonical URL. -/
theorem tweet_status_format (upload : Img → Except PyErr Nat) (a : Article) :
    (a.tweet_call upload).2.1 = a.outlet ++ ": " ++ a.title ++ " " ++ a.url := by
  simp only [Article.tweet_call]
  exact (upload_loop_status upload _ _).trans rfl

/-- C8: starting with no rendered images, tweet renders the first at most
four matching excerpts — at width 60 when exactly one paragraph matched
and at width 35 when two or more matched — and attaches at most four
media ids. -/
theorem tweet_render_widths (upload : Img → Except PyErr Nat) (a : Article)
    (h0 : a.imgs = []) :
    ((a.tweet_call upload).1.imgs.length = min a.matching_grafs.length 4)
    ∧ (a.matching_grafs.length = 1 →
        ∀ i ∈ (a.tweet_call upload).1.imgs, i.2 = 60)
    ∧ (2 ≤ a.matching_grafs.length →
        ∀ i ∈ (a.tweet_call upload).1.imgs, i.2 = 35)
    ∧ (a.tweet_call upload).2.2.length ≤ 4 := by
  have himgs : (a.tweet_call upload).1.imgs =
      (a.matching_grafs.take 4).map
        (fun g => render_img g (if a.matching_grafs.length == 1 then 60 else 35)) := by
    simp only [Article.tweet_call]
    rw [(upload_loop_fields upload _ _).2.2.2.1, h0]
    simp
  refine ⟨?_, ?_, ?_, ?_⟩
  · rw [himgs]
    simp [Nat.min_comm]
  · intro h1 i hi
    rw [himgs] at hi
    obtain ⟨g, hg, hE⟩ := List.mem_map.mp hi
    rw [← hE]
    simp [render_img, h1]
  · intro h2 i hi
    rw [himgs] at hi
    obtain ⟨g, hg, hE⟩ := List.mem_map.mp hi
    rw [← hE]
    have hne : (a.matching_grafs.length == 1) = false := by
      simp
      omega
    simp [render_img, hne]
  · simp [Article.tweet_call]

/-- C8 witness: six matching excerpts give four rendered images, width 35,
and at most four attachments, via the theorem at a concrete article. -/
theorem tweet_render_widths_witness :
    (c8_article.tweet_call c8_upload).1.imgs.length = min c8_article.matching_grafs.length 4
    ∧ (("foia one", 35) : Img).2 = 35
    ∧ (c8_article.tweet_call c8_upload).2.2.length ≤ 4 :=
  ⟨(tweet_render_widths c8_upload c8_article rfl).1,
   (tweet_render_widths c8_upload c8_article rfl).2.2.1 (by decide) ("foia one", 35) (by decide),
   (tweet_render_widths c8_upload c8_article rfl).2.2.2⟩

/-- C10: __init__ never creates the media_ids attribute; the upload loop
then never creates it either (each successful upload dies appending to
the missing attribute, the AttributeError being swallowed), and the
local media_ids list passed to update_status is empty — published posts
carry zero image attachments. -/
theorem tweet_media_ids_empty :
    (∀ (resolve : String → String) (outlet title url : String),
        (Article.init resolve outlet title url).media_ids = none)
    ∧ ∀ (upload : Img → Except PyErr Nat) (a : Article), a.media_ids = none →
        (a.tweet_call upload).1.media_ids = none ∧ (a.tweet_call upload).2.2 = [] := by
  constructor
  · intro resolve outlet title url
    rfl
  · intro upload a h
    constructor
    · simp only [Article.tweet_call]
      exact upload_loop_media_none upload _ _ h
    · rfl

/-- C10 witness: a concrete article with one matching excerpt and an upload
oracle that always succeeds still yields no attribute and an empty
attachment list. -/
theorem tweet_media_ids_empty_witness :
    (c10_article.tweet_call c10_upload).1.media_ids = none
    ∧ (c10_article.tweet_call c10_upload).2.2 = [] :=
  tweet_media_ids_empty.2 c10_upload c10_article rfl

/-- C1: an incoming article whose canonical URL equals one of the most
recent min(N,1000) canonical URLs recorded for its outlet is dropped by
the filter: during the whole outlet run no matcher call and no publish
call ever happens for that URL. -/
theorem run_outlet_dedup (env : PipelineEnv) (outlet : String) (entries : List Entry)
    (s : RunState) (u : String) (hu : u ∈ recent_urls s.store outlet)
    (h0 : s.trace = []) :
    ∀ ev ∈ (run_outlet env outlet entries s).1.trace, RunEvent.url ev ≠ u := by
  unfold run_outlet
  cases hp : parse_feed env.resolve outlet entries with
  | error e =>
    intro ev hev
    have hev2 : ev ∈ s.trace := hev
    rw [h0] at hev2
    exact absurd hev2 (List.not_mem_nil ev)
  | ok articles =>
    obtain ⟨d, hd, hdu⟩ := process_articles_trace env
      (articles.filter (fun a => !((recent_urls s.store outlet).contains a.url))) s
    intro ev hev
    have hev2 : ev ∈ (process_articles env
        (articles.filter (fun a => !((recent_urls s.store outlet).contains a.url)))
        s).1.trace := hev
    rw [hd, h0, List.nil_append] at hev2
    obtain ⟨a, ha, hua⟩ := hdu ev hev2
    have hfa := List.of_mem_filter ha
    rw [hua]
    intro hcontra
    rw [hcontra] at hfa
    have hc : (recent_urls s.store outlet).contains u = true :=
      List.elem_eq_true_of_mem hu
    rw [hc] at hfa
    simp at hfa

/-- C1 witness: with a concrete store already holding the canonical URL,
the run makes no matcher call and no publish call for it. -/
theorem run_outlet_dedup_witness :
    RunEvent.matchCalled "http://x.com/a" ∉
      (run_outlet c1_env "X" c1_entries ⟨c1_store, [], 1⟩).1.trace
    ∧ RunEvent.tweetCalled "http://x.com/a" ∉
      (run_outlet c1_env "X" c1_entries ⟨c1_store, [], 1⟩).1.trace :=
  ⟨fun h => run_outlet_dedup c1_env "X" c1_entries ⟨c1_store, [], 1⟩ "http://x.com/a"
      (by decide) rfl (RunEvent.matchCalled "http://x.com/a") h rfl,
   fun h => run_outlet_dedup c1_env "X" c1_entries ⟨c1_store, [], 1⟩ "http://x.com/a"
      (by decide) rfl (RunEvent.tweetCalled "http://x.com/a") h rfl⟩

/-- C2 (amended): when the outlet run completes with no uncaught exception,
the store grows by exactly one row per filtered (non-duplicate) article,
regardless of match outcome.  When extraction or publishing raises, the
failing article inserts no row and the batch stops, so the original
unconditional claim fails: see the counterexample. -/
theorem run_outlet_store_count (env : PipelineEnv) (outlet : String) (entries : List Entry)
    (s s' : RunState) (arts : List Article)
    (hp : parse_feed env.resolve outlet entries = Except.ok arts)
    (hr : run_outlet env outlet entries s = (s', none)) :
    s'.store.length = s.store.length +
      (arts.filter (fun a => !((recent_urls s.store outlet).contains a.url))).length := by
  unfold run_outlet at hr
  rw [hp] at hr
  exact process_articles_store_ok env _ s s' hr

/-- C2 witness: two entries, one already seen; the run completes and the
store grows by exactly one row, the count of filtered articles. -/
theorem run_outlet_store_count_witness :
    (⟨c2w_store ++ [⟨"T", "X", "http://x.com/a", false, 1⟩],
        [RunEvent.matchCalled "http://x.com/a"], 2⟩ : RunState).store.length =
      (⟨c2w_store, [], 1⟩ : RunState).store.length +
        (c2w_arts.filter
          (fun a => !((recent_urls c2w_store "X").contains a.url))).length :=
  run_outlet_store_count c2w_env "X" c2w_entries ⟨c2w_store, [], 1⟩
    ⟨c2w_store ++ [⟨"T", "X", "http://x.com/a", false, 1⟩],
      [RunEvent.matchCalled "http://x.com/a"], 2⟩ c2w_arts rfl rfl

/-- C2 counterexample: the lone surviving article fails inside
update_status; the run aborts with zero rows inserted although one
article survived the filter, so the row count does not increase by the
filtered count. -/
theorem run_outlet_store_count_cex :
    (run_outlet c2_env "X" c2_entries ⟨[], [], 0⟩).1.store = []
    ∧ (run_outlet c2_env "X" c2_entries ⟨[], [], 0⟩).2 = some PyErr.twythonError
    ∧ (match parse_feed c2_env.resolve "X" c2_entries with
       | Except.ok arts =>
          (arts.filter
            (fun a => !((recent_urls ([] : List SeenRecord) "X").contains a.url))).length
       | Except.error _ => 0) = 1 := by decide

/-- C4 (amended): when update_status raises for an article the exception
propagates uncaught: the article is not recorded at all (in particular
no posted=false row is written) and the remaining articles of the
outlet batch are not processed. -/
theorem publish_failure_aborts (env : PipelineEnv) (a : Article) (rest : List Article)
    (s : RunState) (t : String) (e : PyErr)
    (hf : env.fetch a.url = Except.ok t)
    (hm : ({ a with matching_grafs := a.matching_grafs ++ match_grafs t } :
        Article).matching_grafs.isEmpty = false)
    (ht : ({ a with matching_grafs := a.matching_grafs ++ match_grafs t } :
        Article).tweet env.upload env.post = Except.error e) :
    process_articles env (a :: rest) s =
      ({ s with trace := s.trace ++
          [RunEvent.matchCalled a.url, RunEvent.tweetCalled a.url] }, some e) := by
  have hc : a.check_for_matches env.fetch =
      Except.ok { a with matching_grafs := a.matching_grafs ++ match_grafs t } := by
    simp [Article.check_for_matches, hf]
  have hpa : process_article env a s =
      ({ s with trace := s.trace ++
          [RunEvent.matchCalled a.url, RunEvent.tweetCalled a.url] }, some e) := by
    simp [process_article, hc, hm, ht, List.append_assoc]
  exact process_articles_cons_err env a rest s _ e hpa

/-- C4 witness: a concrete publish failure stops the batch with nothing
recorded. -/
theorem publish_failure_aborts_witness :
    process_articles c4_env (c4_article :: c4_rest) ⟨[], [], 0⟩ =
      (⟨[], [RunEvent.matchCalled "http://x.com/a", RunEvent.tweetCalled "http://x.com/a"], 0⟩,
        some PyErr.twythonError) :=
  publish_failure_aborts c4_env c4_article c4_rest ⟨[], [], 0⟩ "an open records case"
    PyErr.twythonError rfl rfl rfl

/-- C4 counterexample: update_status fails for the first article of the
outlet; the run records no row for it (so no posted=false record) and
never processes the second article — the failure does stop the batch. -/
theorem publish_failure_cex :
    run_outlet c4_env "X" c4_entries ⟨[], [], 0⟩ =
      (⟨[], [RunEvent.matchCalled "http://x.com/a", RunEvent.tweetCalled "http://x.com/a"], 0⟩,
        some PyErr.twythonError) := by decide

/-- C5 (amended): when clean_article raises for an article the exception
propagates uncaught: the article is skipped but not recorded as seen,
and the remaining articles of the outlet batch are not processed. -/
theorem extraction_failure_aborts (env : PipelineEnv) (a : Article) (rest : List Article)
    (s : RunState) (e : PyErr) (hf : env.fetch a.url = Except.error e) :
    process_articles env (a :: rest) s =
      ({ s with trace := s.trace ++ [RunEvent.matchCalled a.url] }, some e) := by
  have hc : a.check_for_matches env.fetch = Except.error e := by
    simp [Article.check_for_matches, hf]
  have hpa : process_article env a s =
      ({ s with trace := s.trace ++ [RunEvent.matchCalled a.url] }, some e) := by
    simp [process_article, hc]
  exact process_articles_cons_err env a rest s _ e hpa

/-- C5 witness: a concrete extraction failure stops the batch with nothing
recorded. -/
theorem extraction_failure_aborts_witness :
    process_articles c5_env (c5_a :: c5_rest) ⟨[], [], 0⟩ =
      (⟨[], [RunEvent.matchCalled "http://x.com/a"], 0⟩, some PyErr.requestError) :=
  extraction_failure_aborts c5_env c5_a c5_rest ⟨[], [], 0⟩ PyErr.requestError rfl

/-- C5 counterexample: clean_article fails on the first article; the run
aborts, the article is not recorded as seen (store stays empty), and the
second article is never processed. -/
theorem extraction_failure_cex :
    run_outlet c5_env "X" c5_entries ⟨[], [], 0⟩ =
      (⟨[], [RunEvent.matchCalled "http://x.com/a"], 0⟩, some PyErr.requestError) := by decide

/-- C6 (amended): an entry lacking a title or a link makes the dictionary
access raise KeyError, which aborts the whole feed parse: no article of
that outlet is processed and nothing is recorded — the malformed entry
is not skipped individually. -/
theorem malformed_entry_aborts (env : PipelineEnv) (outlet : String) (entries : List Entry)
    (s : RunState) (hbad : ∃ e ∈ entries, e.title = none ∨ e.link = none) :
    parse_feed env.resolve outlet entries = Except.error PyErr.keyError
    ∧ run_outlet env outlet entries s = (s, some PyErr.keyError) := by
  have hpf := parse_feed_malformed env.resolve outlet entries hbad
  refine ⟨hpf, ?_⟩
  unfold run_outlet
  rw [hpf]

/-- C6 witness: a feed whose first entry lacks a title aborts with KeyError
and an unchanged state. -/
theorem malformed_entry_aborts_witness :
    parse_feed c6_env.resolve "X" c6_entries = Except.error PyErr.keyError
    ∧ run_outlet c6_env "X" c6_entries ⟨[], [], 0⟩ = (⟨[], [], 0⟩, some PyErr.keyError) :=
  malformed_entry_aborts c6_env "X" c6_entries ⟨[], [], 0⟩
    ⟨⟨none, some "http://x.com/a"⟩, List.mem_cons_self _ _, Or.inl rfl⟩

/-- C6 counterexample: the first entry lacks a link while the second entry
is well formed; the whole parse raises KeyError, the well-formed entry
is never processed and nothing is recorded — malformed entries are not
skipped and the batch does crash. -/
theorem malformed_entry_cex :
    parse_feed c6_env.resolve "X" c6x_entries = Except.error PyErr.keyError
    ∧ run_outlet c6_env "X" c6x_entries ⟨[], [], 0⟩ =
        (⟨[], [], 0⟩, some PyErr.keyError) := ⟨rfl, rfl⟩

/-- C7 witness: a non-redirecting outlet and a URL with query and fragment,
canonicalized twice equals once, and decruft_url is idempotent there. -/
theorem canonicalize_url_idem_witness :
    canonicalize_url (fun u => u) "NYT"
        (canonicalize_url (fun u => u) "NYT" "http://x.com/p?q=1#f") =
      canonicalize_url (fun u => u) "NYT" "http://x.com/p?q=1#f"
    ∧ decruft_url (decruft_url "http://x.com/p?q=1#f") =
        decruft_url "http://x.com/p?q=1#f" :=
  ⟨canonicalize_url_idem.1 (fun u => u) "NYT" "http://x.com/p?q=1#f" (by decide) (by decide),
   canonicalize_url_idem.2 "http://x.com/p?q=1#f"⟩
